import Mathlib

/-!
Shallow embedding of `src/include/Cell_Culture/Cell.h` (class `Cell` of the
Game-of-Life style cell culture).  The header contains the full data model and
the inline member bodies; the out-of-line members declared in the header
(`Cell::Cell`, `Cell::isAlive`, `Cell::setNextGenerationAction`,
`Cell::updateState`, whose bodies live in a `Cell.cpp` that is not among the
sources) are modelled from the specification, as marked on each definition.

C++ `int` is modelled as `Int` (the age only ever takes the values 0, 1 and
successor steps, so machine-word overflow never decides any property below),
`char` as `Char`, and the `COLOR` enumeration of `terminal.h` by the four
colors the header uses.
-/

set_option autoImplicit false

/-- The `COLOR` enumeration consumed from `terminal.h` (not among the sources);
only the four colors named in `Cell.h` are needed. -/
inductive COLOR where
  | WHITE
  | BLACK
  | CYAN
  | MAGENTA
  deriving DecidableEq, Repr

/-- Data structure holding colors to visualize the state of cells
(`struct StateColors`, `Cell.h` lines 17-22). -/
structure StateColors where
  LIVING : COLOR
  DEAD : COLOR
  OLD : COLOR
  ELDER : COLOR
  deriving DecidableEq, Repr

/-- Default color values (`STATE_COLORS`, `Cell.h` line 27). -/
def STATE_COLORS : StateColors :=
  { LIVING := COLOR.WHITE, DEAD := COLOR.BLACK, OLD := COLOR.CYAN
    ELDER := COLOR.MAGENTA }

/-- Enumeration of possible cell actions (`enum ACTION`, `Cell.h` line 32). -/
inductive ACTION where
  | KILL_CELL
  | IGNORE_CELL
  | GIVE_CELL_LIFE
  | DO_NOTHING
  deriving DecidableEq, Repr

/-- Struct that encapsulates the details about the Cell
(`Cell::CellDetails`, `Cell.h` lines 49-54). -/
structure CellDetails where
  age : Int
  color : COLOR
  rimCell : Bool
  value : Char
  deriving DecidableEq, Repr

/-- Struct that encapsulates the changes to be made next generation
(`Cell::NextUpdate`, `Cell.h` lines 60-65). -/
structure NextUpdate where
  nextGenerationAction : ACTION
  nextColor : COLOR
  nextValue : Char
  willBeAlive : Bool
  deriving DecidableEq, Repr

/-- The `Cell` class state: current details plus staged next update
(`Cell.h` lines 44-200). -/
structure Cell where
  details : CellDetails
  nextUpdate : NextUpdate
  deriving DecidableEq, Repr

/-- Modelled from the spec: the construction-time display glyph.  The spec only
says a cell has a default `value` at construction; the concrete glyph (set in
the missing `Cell.cpp`) is irrelevant to every property below. -/
def defaultCellValue : Char := '#'

/-- Private `Cell::incrementAge` (`Cell.h` line 70): `details.age++`. -/
def Cell.incrementAge (c : Cell) : Cell :=
  { c with details := { c.details with age := c.details.age + 1 } }

/-- Private `Cell::killCell` (`Cell.h` line 75): `details.age = 0`. -/
def Cell.killCell (c : Cell) : Cell :=
  { c with details := { c.details with age := 0 } }

/-- Private `Cell::setCellValue` (`Cell.h` line 83): `details.value = value`. -/
def Cell.setCellValue (c : Cell) (value : Char) : Cell :=
  { c with details := { c.details with value := value } }

/-- Private `Cell::setColor` (`Cell.h` line 91): `this->details.color = color`. -/
def Cell.setColor (c : Cell) (color : COLOR) : Cell :=
  { c with details := { c.details with color := color } }

/-- `Cell::getAge` (`Cell.h` line 136): `return details.age`. -/
def Cell.getAge (c : Cell) : Int := c.details.age

/-- `Cell::getColor` (`Cell.h` line 144): `return details.color`. -/
def Cell.getColor (c : Cell) : COLOR := c.details.color

/-- `Cell::isRimCell` (`Cell.h` line 154): `return details.rimCell`. -/
def Cell.isRimCell (c : Cell) : Bool := c.details.rimCell

/-- `Cell::getCellValue` (`Cell.h` line 168): `return details.value`. -/
def Cell.getCellValue (c : Cell) : Char := c.details.value

/-- `Cell::setNextColor` (`Cell.h` line 161):
`this->nextUpdate.nextColor = nextColor` — unconditional, no rim-cell guard. -/
def Cell.setNextColor (c : Cell) (nextColor : COLOR) : Cell :=
  { c with nextUpdate := { c.nextUpdate with nextColor := nextColor } }

/-- `Cell::setNextCellValue` (`Cell.h` line 176):
`nextUpdate.nextValue = value` — unconditional, no rim-cell guard. -/
def Cell.setNextCellValue (c : Cell) (value : Char) : Cell :=
  { c with nextUpdate := { c.nextUpdate with nextValue := value } }

/-- `Cell::setIsAliveNext` (`Cell.h` line 183):
`nextUpdate.willBeAlive = isAliveNext` — unconditional, no rim-cell guard. -/
def Cell.setIsAliveNext (c : Cell) (isAliveNext : Bool) : Cell :=
  { c with nextUpdate := { c.nextUpdate with willBeAlive := isAliveNext } }

/-- `Cell::isAliveNext` (`Cell.h` line 192): `return nextUpdate.willBeAlive`. -/
def Cell.isAliveNext (c : Cell) : Bool := c.nextUpdate.willBeAlive

/-- Reading through the `ACTION&` returned by `Cell::getNextGenerationAction`
(`Cell.h` line 199): `return nextUpdate.nextGenerationAction`. -/
def Cell.getNextGenerationAction (c : Cell) : ACTION :=
  c.nextUpdate.nextGenerationAction

/-- Writing through the mutable `ACTION&` reference returned by
`Cell::getNextGenerationAction` (`Cell.h` line 199): the reference aliases
`nextUpdate.nextGenerationAction`, so an assignment through it stores the
action unconditionally, with no rim-cell guard. -/
def Cell.writeNextGenerationAction (c : Cell) (action : ACTION) : Cell :=
  { c with nextUpdate := { c.nextUpdate with nextGenerationAction := action } }

/-- Modelled from the spec: `Cell::isAlive` is declared at `Cell.h` line 111
but its body (in the missing `Cell.cpp`) is not among the sources.  Spec §3:
`isAlive() ⇔ (!boundary) ∧ (age > 0)`; the header doc agrees ("if it is not a
rim cell and has an age that is larger than zero"). -/
def Cell.isAlive (c : Cell) : Bool :=
  !c.details.rimCell && decide (0 < c.details.age)

/-- Modelled from the spec: `Cell::setNextGenerationAction` is declared at
`Cell.h` line 119 but its body is in the missing `Cell.cpp`.  Spec §4.1:
"stages the action for the next commit. No-op (silently ignored) if the cell
is a boundary cell"; the header doc agrees ("Does not work on rim cells"). -/
def Cell.setNextGenerationAction (c : Cell) (action : ACTION) : Cell :=
  if c.details.rimCell then c
  else { c with nextUpdate := { c.nextUpdate with nextGenerationAction := action } }

/-- Modelled from the spec: `Cell::updateState` (the commit) is declared at
`Cell.h` line 128 but its body is in the missing `Cell.cpp`.  Spec §4.1:
applies `pending.action` to `age` per the action table (`Kill`: `age ← 0`;
`Ignore`: if alive, `age ← age + 1`; `GiveLife`: if not boundary,
`age ← age + 1`; `NoOp`: unchanged), then replaces current `color` and `value`
with `pending.nextColor` / `pending.nextValue`; it must have no effect on a
boundary cell (spec §4.1, §3 invariants), and the staged action is reset
(spec §3: at commit the pending state "becomes the new current state and is
reset"; the reset is modelled on the action field, the explicit default). -/
def Cell.updateState (c : Cell) : Cell :=
  if c.details.rimCell then c
  else
    let newAge : Int :=
      match c.nextUpdate.nextGenerationAction with
      | ACTION.KILL_CELL => 0
      | ACTION.IGNORE_CELL =>
          if c.isAlive then c.details.age + 1 else c.details.age
      | ACTION.GIVE_CELL_LIFE => c.details.age + 1
      | ACTION.DO_NOTHING => c.details.age
    { details :=
        { age := newAge, color := c.nextUpdate.nextColor
          rimCell := c.details.rimCell, value := c.nextUpdate.nextValue }
      nextUpdate :=
        { c.nextUpdate with nextGenerationAction := ACTION.DO_NOTHING } }

/-- Modelled from the spec: the constructor `Cell::Cell(bool, ACTION)` is
declared at `Cell.h` line 101 with defaults `isRimCell = false`,
`action = DO_NOTHING`; its body is in the missing `Cell.cpp`.  Spec §4.1:
interior cells start dead (age 0) unless the initial action immediately
implies life (`GiveLife` seeds age 1, hence the living color, as `color` is a
cached function of liveness); boundary cells are fixed dead.  Pending fields
start as the identity update (spec §8 round-trip: "`NoOp` and default pending
fields represent identity") holding the constructor's action; `willBeAlive`
starts false (the spec gives it no other default). -/
def Cell.construct (isRimCell : Bool) (action : ACTION) : Cell :=
  let base : CellDetails :=
    { age := 0, color := STATE_COLORS.DEAD, rimCell := isRimCell
      value := defaultCellValue }
  let details :=
    if isRimCell then base
    else if action = ACTION.GIVE_CELL_LIFE then
      { base with age := 1, color := STATE_COLORS.LIVING }
    else base
  { details := details
    nextUpdate :=
      { nextGenerationAction := action, nextColor := details.color
        nextValue := details.value, willBeAlive := false } }

/-- One public mutating call on a cell: the four staging operations of
`Cell.h` together with the `updateState` commit. -/
inductive Op where
  | stageAction (action : ACTION)
  | stageColor (nextColor : COLOR)
  | stageValue (value : Char)
  | stageAlive (isAliveNext : Bool)
  | commit
  deriving DecidableEq, Repr

/-- Apply one public mutating call to a cell. -/
def applyOp (c : Cell) : Op → Cell
  | Op.stageAction action => c.setNextGenerationAction action
  | Op.stageColor nextColor => c.setNextColor nextColor
  | Op.stageValue value => c.setNextCellValue value
  | Op.stageAlive isAliveNext => c.setIsAliveNext isAliveNext
  | Op.commit => c.updateState

/-- Apply a sequence of staging and commit calls, left to right. -/
def applyOps (c : Cell) (ops : List Op) : Cell :=
  ops.foldl applyOp c

/-! ### Helper lemmas -/

theorem applyOp_details_of_rim (c : Cell) (h : c.details.rimCell = true)
    (op : Op) : (applyOp c op).details = c.details := by
  cases op with
  | stageAction action => simp [applyOp, Cell.setNextGenerationAction, h]
  | stageColor nextColor => rfl
  | stageValue value => rfl
  | stageAlive isAliveNext => rfl
  | commit => simp [applyOp, Cell.updateState, h]

theorem applyOps_details_of_rim (c : Cell) (h : c.details.rimCell = true)
    (ops : List Op) : (applyOps c ops).details = c.details := by
  induction ops generalizing c with
  | nil => rfl
  | cons op ops ih =>
      have h1 : (applyOp c op).details = c.details :=
        applyOp_details_of_rim c h op
      have h2 : (applyOp c op).details.rimCell = true := by rw [h1]; exact h
      calc (applyOps c (op :: ops)).details
          = (applyOps (applyOp c op) ops).details := rfl
        _ = (applyOp c op).details := ih _ h2
        _ = c.details := h1

theorem updateState_age (c : Cell) :
    c.updateState.details.age =
      if c.details.rimCell then c.details.age
      else
        match c.nextUpdate.nextGenerationAction with
        | ACTION.KILL_CELL => 0
        | ACTION.IGNORE_CELL =>
            if c.isAlive then c.details.age + 1 else c.details.age
        | ACTION.GIVE_CELL_LIFE => c.details.age + 1
        | ACTION.DO_NOTHING => c.details.age := by
  unfold Cell.updateState
  cases hr : c.details.rimCell <;> simp [hr]

theorem applyOp_age_nonneg (c : Cell) (h : 0 ≤ c.details.age) (op : Op) :
    0 ≤ (applyOp c op).details.age := by
  cases op with
  | stageAction action =>
      simp only [applyOp, Cell.setNextGenerationAction]
      split <;> exact h
  | stageColor nextColor => exact h
  | stageValue value => exact h
  | stageAlive isAliveNext => exact h
  | commit =>
      simp only [applyOp]
      rw [updateState_age]
      split
      · exact h
      · cases c.nextUpdate.nextGenerationAction <;> dsimp only <;> omega

theorem applyOps_age_nonneg (c : Cell) (h : 0 ≤ c.details.age)
    (ops : List Op) : 0 ≤ (applyOps c ops).details.age := by
  induction ops generalizing c with
  | nil => exact h
  | cons op ops ih => exact ih (applyOp c op) (applyOp_age_nonneg c h op)

/-! ### Claim theorems -/

/-- C1: for every boundary (rim) cell, the observable state — `getAge()`,
`getColor()`, `getCellValue()`, `isRimCell()` — is invariant under any
sequence of staging calls (`setNextGenerationAction`, `setNextColor`,
`setNextCellValue`, `setIsAliveNext`) and `updateState()` commits. -/
theorem rim_cell_observables_invariant (c : Cell) (h : c.isRimCell = true)
    (ops : List Op) :
    (applyOps c ops).getAge = c.getAge ∧
    (applyOps c ops).getColor = c.getColor ∧
    (applyOps c ops).getCellValue = c.getCellValue ∧
    (applyOps c ops).isRimCell = c.isRimCell := by
  have hd : (applyOps c ops).details = c.details :=
    applyOps_details_of_rim c h ops
  simp [Cell.getAge, Cell.getColor, Cell.getCellValue, Cell.isRimCell, hd]

/-- Witness for C1 at a concrete rim cell and a concrete call sequence. -/
theorem rim_cell_observables_invariant_inst :
    (Cell.construct true ACTION.DO_NOTHING).isRimCell = true ∧
    ((applyOps (Cell.construct true ACTION.DO_NOTHING)
        [Op.stageAction ACTION.GIVE_CELL_LIFE, Op.commit,
         Op.stageColor COLOR.WHITE, Op.stageValue 'x', Op.stageAlive true,
         Op.commit]).getAge = (Cell.construct true ACTION.DO_NOTHING).getAge ∧
     (applyOps (Cell.construct true ACTION.DO_NOTHING)
        [Op.stageAction ACTION.GIVE_CELL_LIFE, Op.commit,
         Op.stageColor COLOR.WHITE, Op.stageValue 'x', Op.stageAlive true,
         Op.commit]).getColor = (Cell.construct true ACTION.DO_NOTHING).getColor ∧
     (applyOps (Cell.construct true ACTION.DO_NOTHING)
        [Op.stageAction ACTION.GIVE_CELL_LIFE, Op.commit,
         Op.stageColor COLOR.WHITE, Op.stageValue 'x', Op.stageAlive true,
         Op.commit]).getCellValue =
       (Cell.construct true ACTION.DO_NOTHING).getCellValue ∧
     (applyOps (Cell.construct true ACTION.DO_NOTHING)
        [Op.stageAction ACTION.GIVE_CELL_LIFE, Op.commit,
         Op.stageColor COLOR.WHITE, Op.stageValue 'x', Op.stageAlive true,
         Op.commit]).isRimCell = (Cell.construct true ACTION.DO_NOTHING).isRimCell) :=
  ⟨by decide,
   rim_cell_observables_invariant (Cell.construct true ACTION.DO_NOTHING)
     (by decide)
     [Op.stageAction ACTION.GIVE_CELL_LIFE, Op.commit,
      Op.stageColor COLOR.WHITE, Op.stageValue 'x', Op.stageAlive true,
      Op.commit]⟩

/-- C2: staging `KILL_CELL` and committing yields age 0 on a non-boundary
cell, and leaves a boundary cell's age unchanged. -/
theorem kill_then_commit_age_zero (c : Cell) :
    ((c.setNextGenerationAction ACTION.KILL_CELL).updateState).getAge =
      if c.isRimCell then c.getAge else 0 := by
  cases hr : c.details.rimCell with
  | true =>
      simp [Cell.setNextGenerationAction, Cell.updateState, Cell.getAge,
        Cell.isRimCell, hr]
  | false =>
      simp [Cell.setNextGenerationAction, Cell.updateState, Cell.getAge,
        Cell.isRimCell, hr]

/-- C3: on an interior cell, staging `IGNORE_CELL` and committing increments
the age by exactly 1 when the cell is alive (age > 0) beforehand, and leaves
the age at 0 when the cell is dead (age = 0) beforehand. -/
theorem ignore_then_commit_age (c : Cell) (h : c.isRimCell = false) :
    (0 < c.getAge →
      ((c.setNextGenerationAction ACTION.IGNORE_CELL).updateState).getAge =
        c.getAge + 1) ∧
    (c.getAge = 0 →
      ((c.setNextGenerationAction ACTION.IGNORE_CELL).updateState).getAge =
        0) := by
  have hr : c.details.rimCell = false := h
  constructor
  · intro hpos
    have hpos' : 0 < c.details.age := hpos
    simp [Cell.setNextGenerationAction, Cell.updateState, Cell.isAlive,
      Cell.getAge, hr, hpos']
  · intro hz
    have hz' : c.details.age = 0 := hz
    simp [Cell.setNextGenerationAction, Cell.updateState, Cell.isAlive,
      Cell.getAge, hr, hz']

/-- Witness for C3 at a concrete alive interior cell (age 3). -/
theorem ignore_then_commit_age_inst :
    ((⟨⟨3, COLOR.WHITE, false, '#'⟩,
       ⟨ACTION.DO_NOTHING, COLOR.WHITE, '#', false⟩⟩ : Cell).isRimCell
      = false) ∧
    ((0 < (⟨⟨3, COLOR.WHITE, false, '#'⟩,
         ⟨ACTION.DO_NOTHING, COLOR.WHITE, '#', false⟩⟩ : Cell).getAge →
      (((⟨⟨3, COLOR.WHITE, false, '#'⟩,
          ⟨ACTION.DO_NOTHING, COLOR.WHITE, '#', false⟩⟩ : Cell).setNextGenerationAction
            ACTION.IGNORE_CELL).updateState).getAge =
        (⟨⟨3, COLOR.WHITE, false, '#'⟩,
          ⟨ACTION.DO_NOTHING, COLOR.WHITE, '#', false⟩⟩ : Cell).getAge + 1) ∧
     ((⟨⟨3, COLOR.WHITE, false, '#'⟩,
         ⟨ACTION.DO_NOTHING, COLOR.WHITE, '#', false⟩⟩ : Cell).getAge = 0 →
      (((⟨⟨3, COLOR.WHITE, false, '#'⟩,
          ⟨ACTION.DO_NOTHING, COLOR.WHITE, '#', false⟩⟩ : Cell).setNextGenerationAction
            ACTION.IGNORE_CELL).updateState).getAge = 0)) :=
  ⟨by decide,
   ignore_then_commit_age
     (⟨⟨3, COLOR.WHITE, false, '#'⟩,
       ⟨ACTION.DO_NOTHING, COLOR.WHITE, '#', false⟩⟩ : Cell) (by decide)⟩

/-- C4: staging `GIVE_CELL_LIFE` on a dead interior cell (age 0) and
committing yields age 1 and `isAlive() = true`; staging it on a boundary cell
(age 0) and committing leaves the age at 0. -/
theorem give_life_then_commit (c : Cell) :
    (c.isRimCell = false → c.getAge = 0 →
      ((c.setNextGenerationAction ACTION.GIVE_CELL_LIFE).updateState).getAge
          = 1 ∧
      ((c.setNextGenerationAction ACTION.GIVE_CELL_LIFE).updateState).isAlive
          = true) ∧
    (c.isRimCell = true → c.getAge = 0 →
      ((c.setNextGenerationAction ACTION.GIVE_CELL_LIFE).updateState).getAge
          = 0) := by
  constructor
  · intro h hz
    have hr : c.details.rimCell = false := h
    have hz' : c.details.age = 0 := hz
    constructor
    · simp [Cell.setNextGenerationAction, Cell.updateState, Cell.getAge, hr, hz']
    · simp [Cell.setNextGenerationAction, Cell.updateState, Cell.isAlive, hr, hz']
  · intro h hz
    have hr : c.details.rimCell = true := h
    have hz' : c.details.age = 0 := hz
    simp [Cell.setNextGenerationAction, Cell.updateState, Cell.getAge, hr, hz']

/-- Witness for C4 at a concrete dead interior cell and a concrete rim cell. -/
theorem give_life_then_commit_inst :
    ((((Cell.construct false ACTION.DO_NOTHING).setNextGenerationAction
          ACTION.GIVE_CELL_LIFE).updateState).getAge = 1 ∧
     (((Cell.construct false ACTION.DO_NOTHING).setNextGenerationAction
          ACTION.GIVE_CELL_LIFE).updateState).isAlive = true) ∧
    (((Cell.construct true ACTION.DO_NOTHING).setNextGenerationAction
         ACTION.GIVE_CELL_LIFE).updateState).getAge = 0 :=
  ⟨(give_life_then_commit (Cell.construct false ACTION.DO_NOTHING)).1
     (by decide) (by decide),
   (give_life_then_commit (Cell.construct true ACTION.DO_NOTHING)).2
     (by decide) (by decide)⟩

/-- C5: at every point of a cell's lifetime — any cell state and any sequence
of staging and commit calls — `isAlive()` returns true exactly when the cell
is not a rim cell and its age is strictly positive. -/
theorem isAlive_iff_interior_and_positive_age (c : Cell) (ops : List Op) :
    (applyOps c ops).isAlive = true ↔
      ((applyOps c ops).isRimCell = false ∧ 0 < (applyOps c ops).getAge) := by
  simp [Cell.isAlive, Cell.isRimCell, Cell.getAge, Bool.and_eq_true,
    Bool.not_eq_true']

/-- C6: on a non-boundary cell, `setNextColor(col)` and `setNextCellValue(v)`
leave `getColor()`/`getCellValue()` at their pre-staging values until
`updateState()` is called; after the commit, `getColor()` returns exactly
`col` and `getCellValue()` returns exactly `v`. -/
theorem staged_color_value_commit (c : Cell) (h : c.isRimCell = false)
    (col : COLOR) (v : Char) :
    ((c.setNextColor col).setNextCellValue v).getColor = c.getColor ∧
    ((c.setNextColor col).setNextCellValue v).getCellValue = c.getCellValue ∧
    (((c.setNextColor col).setNextCellValue v).updateState).getColor = col ∧
    (((c.setNextColor col).setNextCellValue v).updateState).getCellValue
      = v := by
  have hr : c.details.rimCell = false := h
  refine ⟨rfl, rfl, ?_, ?_⟩ <;>
    simp [Cell.setNextColor, Cell.setNextCellValue, Cell.updateState,
      Cell.getColor, Cell.getCellValue, hr]

/-- Witness for C6 at a concrete interior cell, color and glyph. -/
theorem staged_color_value_commit_inst :
    (Cell.construct false ACTION.DO_NOTHING).isRimCell = false ∧
    ((((Cell.construct false ACTION.DO_NOTHING).setNextColor
          COLOR.CYAN).setNextCellValue 'x').getColor =
        (Cell.construct false ACTION.DO_NOTHING).getColor ∧
     (((Cell.construct false ACTION.DO_NOTHING).setNextColor
          COLOR.CYAN).setNextCellValue 'x').getCellValue =
        (Cell.construct false ACTION.DO_NOTHING).getCellValue ∧
     ((((Cell.construct false ACTION.DO_NOTHING).setNextColor
          COLOR.CYAN).setNextCellValue 'x').updateState).getColor =
        COLOR.CYAN ∧
     ((((Cell.construct false ACTION.DO_NOTHING).setNextColor
          COLOR.CYAN).setNextCellValue 'x').updateState).getCellValue = 'x') :=
  ⟨by decide,
   staged_color_value_commit (Cell.construct false ACTION.DO_NOTHING)
     (by decide) COLOR.CYAN 'x'⟩

/-- C7: round-trip identity — constructing an interior cell with the default
action `DO_NOTHING` and immediately committing leaves the observable state
unchanged: age 0 and the construction-time default color and value. -/
theorem noop_construct_commit_roundtrip :
    ((Cell.construct false ACTION.DO_NOTHING).updateState).getAge = 0 ∧
    ((Cell.construct false ACTION.DO_NOTHING).updateState).getColor =
      (Cell.construct false ACTION.DO_NOTHING).getColor ∧
    ((Cell.construct false ACTION.DO_NOTHING).updateState).getCellValue =
      (Cell.construct false ACTION.DO_NOTHING).getCellValue := by
  decide

/-- C8 counterexample: on a boundary cell, `setNextColor` is not a no-op on
the whole cell state — it changes the staged `nextColor` field (the inline
body at `Cell.h` line 161 writes `nextUpdate.nextColor` with no rim guard). -/
theorem rim_staging_changes_pending_cex :
    (Cell.construct true ACTION.DO_NOTHING).setNextColor COLOR.WHITE ≠
      Cell.construct true ACTION.DO_NOTHING := by
  decide

/-- C8 (amended): on a boundary cell, `setNextGenerationAction` is a silently
ignored no-op leaving the whole cell unchanged, while `setNextColor`,
`setNextCellValue` and `setIsAliveNext` do write the corresponding pending
fields (exactly as on interior cells) but leave the current observable state
(`details`: age, color, value, rim flag) unchanged; none of these calls is an
error. -/
theorem rim_staging_observables_noop (c : Cell) (h : c.isRimCell = true)
    (action : ACTION) (col : COLOR) (v : Char) (b : Bool) :
    c.setNextGenerationAction action = c ∧
    (c.setNextColor col).details = c.details ∧
    (c.setNextColor col).nextUpdate.nextColor = col ∧
    (c.setNextCellValue v).details = c.details ∧
    (c.setNextCellValue v).nextUpdate.nextValue = v ∧
    (c.setIsAliveNext b).details = c.details ∧
    (c.setIsAliveNext b).nextUpdate.willBeAlive = b := by
  have hr : c.details.rimCell = true := h
  exact ⟨by simp [Cell.setNextGenerationAction, hr], rfl, rfl, rfl, rfl, rfl,
    rfl⟩

/-- Witness for the amended C8 at a concrete rim cell. -/
theorem rim_staging_observables_noop_inst :
    (Cell.construct true ACTION.DO_NOTHING).setNextGenerationAction
        ACTION.KILL_CELL = Cell.construct true ACTION.DO_NOTHING ∧
    ((Cell.construct true ACTION.DO_NOTHING).setNextColor
        COLOR.WHITE).details = (Cell.construct true ACTION.DO_NOTHING).details ∧
    ((Cell.construct true ACTION.DO_NOTHING).setNextColor
        COLOR.WHITE).nextUpdate.nextColor = COLOR.WHITE ∧
    ((Cell.construct true ACTION.DO_NOTHING).setNextCellValue
        'x').details = (Cell.construct true ACTION.DO_NOTHING).details ∧
    ((Cell.construct true ACTION.DO_NOTHING).setNextCellValue
        'x').nextUpdate.nextValue = 'x' ∧
    ((Cell.construct true ACTION.DO_NOTHING).setIsAliveNext
        true).details = (Cell.construct true ACTION.DO_NOTHING).details ∧
    ((Cell.construct true ACTION.DO_NOTHING).setIsAliveNext
        true).nextUpdate.willBeAlive = true :=
  rim_staging_observables_noop (Cell.construct true ACTION.DO_NOTHING)
    (by decide) ACTION.KILL_CELL COLOR.WHITE 'x' true

/-- C9: every public operation of `Cell` is total — in this embedding each
operation is a total function on cell states — and every state reachable from
construction by any sequence of staging and commit calls stays in the valid
domain: the age never goes negative, so no operation can fail on a reachable
state. -/
theorem operations_total_age_nonneg (rim : Bool) (action : ACTION)
    (ops : List Op) :
    0 ≤ (applyOps (Cell.construct rim action) ops).getAge := by
  have h0 : 0 ≤ (Cell.construct rim action).details.age := by
    cases rim <;> cases action <;> decide
  exact applyOps_age_nonneg (Cell.construct rim action) h0 ops

/-- C10: writing an action through the mutable reference returned by
`getNextGenerationAction()` stores it for every cell — rim cells included —
so a subsequent read of `getNextGenerationAction()` returns the written
value, bypassing the rim-cell guard that `setNextGenerationAction` enforces
(on a rim cell the setter leaves the staged action unchanged). -/
theorem next_action_reference_write_bypasses_guard (c : Cell)
    (action : ACTION) :
    (c.writeNextGenerationAction action).getNextGenerationAction = action ∧
    (c.isRimCell = true →
      (c.setNextGenerationAction action).getNextGenerationAction =
        c.getNextGenerationAction) := by
  constructor
  · rfl
  · intro h
    have hr : c.details.rimCell = true := h
    simp [Cell.setNextGenerationAction, Cell.getNextGenerationAction, hr]

/-- Witness for C10 at a concrete rim cell and the `KILL_CELL` action. -/
theorem next_action_reference_write_bypasses_guard_inst :
    ((Cell.construct true ACTION.DO_NOTHING).writeNextGenerationAction
        ACTION.KILL_CELL).getNextGenerationAction = ACTION.KILL_CELL ∧
    ((Cell.construct true ACTION.DO_NOTHING).setNextGenerationAction
        ACTION.KILL_CELL).getNextGenerationAction =
      (Cell.construct true ACTION.DO_NOTHING).getNextGenerationAction :=
  ⟨(next_action_reference_write_bypasses_guard
      (Cell.construct true ACTION.DO_NOTHING) ACTION.KILL_CELL).1,
   (next_action_reference_write_bypasses_guard
      (Cell.construct true ACTION.DO_NOTHING) ACTION.KILL_CELL).2
     (by decide)⟩
